import Mathlib

/-!
Verification development for the clinical-protocol drug-analysis backend
(`backend/main_pipeline.py` and `backend/services/*`).

The Python sources are shallowly embedded: pure helpers become Lean
functions, stateful or network-calling code becomes explicit
environment-passing (each external call's outcome is a parameter), and a
Python exception is an explicit `PyExc` value threaded through `Except`.
Module-level name resolution matters here (two modules use names they
never import or define), so each embedded module carries the list of names its
top level actually binds, and resolving a name not in that list raises
`NameError`, exactly as in CPython.
-/

set_option linter.unusedVariables false
set_option maxRecDepth 16384

deriving instance DecidableEq for Except

/-- A Python exception, as far as the embedded code distinguishes them. -/
inductive PyExc where
  | nameError (name : String)
  | attributeError (name : String)
  | other (msg : String)
deriving DecidableEq, Repr

/-! ## Small Python string primitives used throughout the sources -/

/-- `needle` occurs at the head of `hay` (over character lists). -/
def startsWithList : List Char → List Char → Bool
  | [], _ => true
  | _ :: _, [] => false
  | a :: as, b :: bs => a == b && startsWithList as bs

/-- `needle` occurs somewhere in `hay` (Python's `needle in hay`). -/
def hasSubList (needle : List Char) : List Char → Bool
  | [] => startsWithList needle []
  | b :: bs => startsWithList needle (b :: bs) || hasSubList needle bs

/-- Python's substring test `sub in s`. -/
def pyContains (s sub : String) : Bool :=
  hasSubList sub.data s.data

/-- Python's `str.lower` restricted to the alphabets the sources use:
ASCII `A`-`Z` and Cyrillic `А`-`Я` / `Ё`. -/
def pyLowerChar (c : Char) : Char :=
  if 'A' ≤ c ∧ c ≤ 'Z' then Char.ofNat (c.toNat + 32)
  else if c.toNat ≥ 0x410 ∧ c.toNat ≤ 0x42F then Char.ofNat (c.toNat + 32)
  else if c.toNat = 0x401 then Char.ofNat 0x451
  else c

/-- Python's `str.lower` on a whole string. -/
def pyLower (s : String) : String :=
  ⟨s.data.map pyLowerChar⟩

/-- Python's `str.split(sep)` for a one-character separator: keeps empty
pieces, never discards. -/
def pySplitChar (sep : Char) (s : String) : List String :=
  (s.data.splitOn sep).map fun cs => ⟨cs⟩

/-- Python's `str.split(sep, 1)[-1]`: everything after the first separator,
or the whole string when the separator is absent. -/
def pySplitOnceLast (sep : Char) (s : String) : String :=
  match s.data.splitOn sep with
  | [] => s
  | [_] => s
  | _ :: rest => ⟨List.intercalate [sep] rest⟩

/-- Python's whitespace `str.split()`: split on runs of whitespace,
discarding empty pieces. -/
def pySplitWs (s : String) : List String :=
  ((s.data.splitOn ' ').map fun cs => (⟨cs⟩ : String)).filter (· ≠ "")

/-- Python's `str.strip()` (list-based so it reduces in the kernel). -/
def pyStrip (s : String) : String :=
  ⟨((s.data.dropWhile Char.isWhitespace).reverse.dropWhile Char.isWhitespace).reverse⟩

/-- Python truthiness of a string. -/
def pyTruthy (s : String) : Bool := s ≠ ""

/-- Python truthiness of an optional string (`None` and `""` are falsy). -/
def pyTruthyOpt : Option String → Bool
  | none => false
  | some s => pyTruthy s

/-! ## `services/ai_analyzer.py`

The module imports `os`, `json`, `re`, `google.generativeai` and
`load_dotenv` and defines `GEMINI_API_KEY` plus four functions.  It
never imports `logging` and never binds `logger`, yet calls `logger.info` /
`logger.error`; per Python semantics every such call raises
`NameError("logger")`. -/

/-- The names bound at the top level of `services/ai_analyzer.py`
(imports, the configured constant, and its four `def`s). -/
def aiAnalyzerModuleNames : List String :=
  ["os", "json", "re", "genai", "load_dotenv", "GEMINI_API_KEY",
   "generate_ai_analysis", "extract_grade_from_text",
   "extract_justification_from_text", "extract_summary_from_text"]

/-- Resolving the global name `logger` inside `ai_analyzer.py`:
raises `NameError` since the module never binds it. -/
def aiLoggerUse : Except PyExc Unit :=
  if aiAnalyzerModuleNames.contains "logger" then .ok ()
  else .error (.nameError "logger")

/-- `extract_grade_from_text` (ai_analyzer.py lines 135-146), verbatim
branch order: high / moderate / very low / low, each in English or
Russian, over the lowercased text. -/
def extract_grade_from_text (text : String) : String :=
  let t := pyLower text
  if pyContains t "high" || pyContains t "высокий" then "High"
  else if pyContains t "moderate" || pyContains t "умеренный" then "Moderate"
  else if pyContains t "very low" || pyContains t "очень низкий" then "Very Low"
  else if pyContains t "low" || pyContains t "низкий" then "Low"
  else "Unknown"

/-- `extract_justification_from_text` (ai_analyzer.py lines 148-156). -/
def extract_justification_from_text (text : String) : String :=
  let lines := pySplitChar '\n' text
  match lines.find? (fun line =>
      pyContains (pyLower line) "обоснование" ||
      pyContains (pyLower line) "justification") with
  | some line => (pyStrip (pySplitOnceLast ':' line))
  | none =>
      let sentences := ((pySplitChar '.' text).map pyStrip).filter
        (fun s => s.length > 20)
      match sentences with
      | s :: _ => s
      | [] => "Обоснование не найдено"

/-- `extract_summary_from_text` (ai_analyzer.py lines 158-166). -/
def extract_summary_from_text (text : String) : String :=
  let lines := pySplitChar '\n' text
  match lines.find? (fun line =>
      pyContains (pyLower line) "заметка" ||
      pyContains (pyLower line) "summary" ||
      pyContains (pyLower line) "note") with
  | some line => (pyStrip (pySplitOnceLast ':' line))
  | none =>
      let sentences := ((pySplitChar '.' text).map pyStrip).filter
        (fun s => s.length > 15)
      if sentences.length ≥ 2 then
        ". ".intercalate (sentences.drop (sentences.length - 2))
      else
        match sentences with
        | s :: _ => s
        | [] => "Заметка не сгенерирована"

/-- The `EvidenceAssessment` dict the analyzer produces:
`ud_ai_grade`, `ud_ai_justification`, `ai_summary_note`. -/
structure Analysis where
  ud_ai_grade : String
  ud_ai_justification : String
  ai_summary_note : String
deriving DecidableEq, Repr

/-- A parsed JSON analysis object as `json.loads` would hand it back:
each required field either present or absent. -/
structure ParsedAnalysis where
  ud_ai_grade : Option String
  ud_ai_justification : Option String
  ai_summary_note : Option String
deriving DecidableEq, Repr

/-- The required-field validation loop of `generate_ai_analysis`
(lines 108-111): a missing field becomes `"Не определено"`. -/
def fillRequired (p : ParsedAnalysis) : Analysis :=
  { ud_ai_grade := p.ud_ai_grade.getD "Не определено"
    ud_ai_justification := p.ud_ai_justification.getD "Не определено"
    ai_summary_note := p.ai_summary_note.getD "Не определено" }

/-- `generate_ai_analysis` (ai_analyzer.py lines 14-133).
`jloads` stands for `json.loads` applied to the fence-stripped response
(`none` = `JSONDecodeError`); `llm` is the outcome of the awaited
`generate_content_async` call.  Control flow is verbatim:
outer `try` around the LLM call and both parse paths, inner `try`
catching only `JSONDecodeError`, the outer `except Exception` handler
logging and returning the `Error` sentinel dict.  Every `logger.…` call
resolves the unbound global `logger` first. -/
def generate_ai_analysis (jloads : String → Option ParsedAnalysis)
    (llm : Except PyExc String) : Except PyExc Analysis :=
  let body : Except PyExc Analysis :=
    match llm with
    | .error e => .error e
    | .ok text =>
        match jloads text with
        | some parsed =>
            let analysis := fillRequired parsed
            match aiLoggerUse with
            | .ok _ => .ok analysis
            | .error e => .error e
        | none =>
            let analysis : Analysis :=
              { ud_ai_grade := extract_grade_from_text text
                ud_ai_justification := extract_justification_from_text text
                ai_summary_note := extract_summary_from_text text }
            match aiLoggerUse with
            | .ok _ => .ok analysis
            | .error e => .error e
  match body with
  | .ok a => .ok a
  | .error _ =>
      match aiLoggerUse with
      | .ok _ => .ok { ud_ai_grade := "Error"
                       ud_ai_justification := "Ошибка при генерации анализа"
                       ai_summary_note := "Не удалось сгенерировать анализ" }
      | .error e2 => .error e2

example : extract_grade_from_text "GRADE: Low" = "Low" := by decide
example : extract_grade_from_text "очень низкий" = "Very Low" := by decide
example : generate_ai_analysis (fun _ => none) (.ok "low") =
    .error (.nameError "logger") := rfl

/-! ## `services/drug_normalizer.py`

The module imports `httpx`, `os`, `json`, `google.generativeai` and
`load_dotenv`; it never imports `re`, yet `_normalize_with_gemini` calls
`re.sub` on the successful LLM response, so that statement raises
`NameError("re")` — which the function's own `except Exception` then
swallows into `None`. -/

/-- The names bound at the top level of `services/drug_normalizer.py`. -/
def drugNormalizerModuleNames : List String :=
  ["httpx", "os", "json", "genai", "load_dotenv", "GEMINI_API_KEY",
   "RXNAV_API_BASE_URL", "_normalize_with_rxnav", "_normalize_with_gemini",
   "normalize_drug"]

/-- Resolving the global name `re` inside `drug_normalizer.py`:
raises `NameError` since the module never imports it. -/
def reUse : Except PyExc Unit :=
  if drugNormalizerModuleNames.contains "re" then .ok ()
  else .error (.nameError "re")

/-- The effect of `re.sub(r'^(МНН|INN):\s*', '', result, flags=IGNORECASE)`:
drop one leading case-insensitive `МНН:` or `INN:` label plus following
whitespace. -/
def stripInnLabel (s : String) : String :=
  let lowered := s.data.map pyLowerChar
  if startsWithList "мнн:".data lowered ∨ startsWithList "inn:".data lowered then
    ⟨(s.data.drop 4).dropWhile Char.isWhitespace⟩
  else s

/-- `_normalize_with_gemini` (drug_normalizer.py lines 53-83).  `llm` is
the outcome of the awaited `generate_content_async` call; the whole body
sits in one `try` whose `except Exception` returns `None`. -/
def normalize_with_gemini (llm : Except PyExc String) : Option String :=
  let body : Except PyExc (Option String) := do
    let text ← llm
    let result := pyStrip text
    let _ ← reUse
    let result := pyStrip (stripInnLabel result)
    pure (if pyTruthy result ∧ result.length > 2 then some result else none)
  match body with
  | .ok v => v
  | .error _ => none

/-- `_normalize_with_rxnav` (drug_normalizer.py lines 17-51): the entire
HTTP/JSON body is external, so its outcome is the environment's `rxnav`
value; the function's `except Exception` converts any raise to `None`. -/
def normalize_with_rxnav (rxnav : Except PyExc (Option String)) : Option String :=
  match rxnav with
  | .ok v => v
  | .error _ => none

/-- `NormalizationResult` as the code builds it. -/
structure NormResult where
  inn_name : Option String
  source : String
  confidence : String
deriving DecidableEq, Repr

/-- Outcomes of the two external calls `normalize_drug` can make. -/
structure NormEnv where
  rxnav : Except PyExc (Option String)
  gemini : Except PyExc String

/-- `normalize_drug` (drug_normalizer.py lines 85-106).  Returns the
result dict plus two flags: whether the RxNav collaborator was invoked
and whether the Gemini collaborator was invoked. -/
def normalize_drug (env : NormEnv) (drug_name : String) :
    NormResult × Bool × Bool :=
  if ¬ pyTruthy drug_name ∨ ¬ pyTruthy (pyStrip drug_name) then
    (⟨none, "N/A", "none"⟩, false, false)
  else
    let inn1 := normalize_with_rxnav env.rxnav
    if pyTruthyOpt inn1 then (⟨inn1, "RxNav", "high"⟩, true, false)
    else
      let inn2 := normalize_with_gemini env.gemini
      if pyTruthyOpt inn2 then (⟨inn2, "Gemini", "medium"⟩, true, true)
      else (⟨none, "N/A", "none"⟩, true, true)

example : normalize_with_gemini (.ok "Acetylsalicylic acid") = none := rfl
example : normalize_drug ⟨.ok (some "Ibuprofen"), .error (.other "x")⟩ "Нурофен" =
    (⟨some "Ibuprofen", "RxNav", "high"⟩, true, false) := by decide

/-! ## `services/regulatory_checker.py`

`check_all_regulators` launches four independent checks (FDA, EMA, BNF,
WHO_EML) and zips their results onto the fixed key list.  Each check
catches every exception of its own body and degrades to a `status:
"Error"` dict, so nothing a single regulator does can drop its key. -/

/-- Python's `str(exc)` for the exceptions the embedding distinguishes. -/
def pyStrExc : PyExc → String
  | .nameError n => "name " ++ n ++ " is not defined"
  | .attributeError n => "module has no attribute " ++ n
  | .other m => m

/-- One per-regulator result dict.  `status` is optional because a
successfully `json.loads`-parsed LLM reply may lack the key. -/
structure RegEntry where
  status : Option String
  note : Option String
  standard_dosage_text : Option String
deriving DecidableEq, Repr

/-- Outcome of the external part of `_check_fda` (HTTP + JSON, lines
80-89): an exception, a non-empty `results` list whose first entry has
the given `dosage_and_administration` text, or an empty `results`. -/
inductive FdaOutcome where
  | raise (e : PyExc)
  | results (dosage : String)
  | empty
deriving DecidableEq, Repr

/-- `_check_fda` (regulatory_checker.py lines 78-92). -/
def check_fda : FdaOutcome → RegEntry
  | .raise _ => ⟨some "Error", none, none⟩
  | .results d => ⟨some "Likely Approved (Label Found)", none, some d⟩
  | .empty => ⟨some "Not Found", none, none⟩

/-- Outcome of the external part of `_check_ema` (lines 96-104). -/
inductive EmaOutcome where
  | raise (e : PyExc)
  | found
  | notFound
deriving DecidableEq, Repr

/-- `_check_ema` (regulatory_checker.py lines 94-107). -/
def check_ema : EmaOutcome → RegEntry
  | .raise _ => ⟨some "Error", none, none⟩
  | .found => ⟨some "Likely Found", none, none⟩
  | .notFound => ⟨some "Not Found", none, none⟩

/-- Outcome of the external part of `_check_with_gemini`: the LLM call
raised, or its reply parsed as JSON (an arbitrary dict, projected to the
keys the code ever reads), or `json.loads` failed and the raw reply text
goes to the keyword fallback. -/
inductive GemOutcome where
  | raise (e : PyExc)
  | jsonOk (entry : RegEntry)
  | jsonFail (text : String)
deriving DecidableEq, Repr

/-- `_check_with_gemini` (regulatory_checker.py lines 109-142), including
the keyword fallback of lines 130-138 over the lowercased reply. -/
def check_with_gemini : GemOutcome → RegEntry
  | .raise e => ⟨some "Error", some ("Ошибка при проверке: " ++ pyStrExc e), none⟩
  | .jsonOk entry => entry
  | .jsonFail text =>
      let t := pyLower text
      let status :=
        if pyContains t "approved" || pyContains t "одобрен" then "Approved"
        else if pyContains t "not approved" || pyContains t "не одобрен" then
          "Not Approved"
        else "Unknown"
      ⟨some status, some "Статус определен из текстового ответа", none⟩

/-- The `dosage_check` dict: `comparison_result` optional because the
empty placeholder `{}` lacks it. -/
structure DosageCheck where
  comparison_result : Option String
deriving DecidableEq, Repr

/-- `_compare_dosages_with_gemini` (regulatory_checker.py lines 144-176).
`cmp` is the outcome of the LLM call combined with
`clean_and_parse_json` (both external/stdlib layers): either a raise or
the dict the parse produced (with `clean_and_parse_json`'s own fallback
`{"comparison_result": "mismatch"}` already applied on parse failure).
Any raise is caught and becomes `mismatch`. -/
def compare_dosages_with_gemini (cmp : Except PyExc DosageCheck)
    (source_dosage standard_dosage_text : String) : DosageCheck :=
  if ¬ pyTruthy source_dosage ∨ ¬ pyTruthy standard_dosage_text then
    ⟨some "mismatch"⟩
  else
    match cmp with
    | .ok d => d
    | .error _ => ⟨some "mismatch"⟩

/-- Outcomes of the external calls inside `check_all_regulators`. -/
structure RegEnv where
  fda : FdaOutcome
  ema : EmaOutcome
  bnf : GemOutcome
  who : GemOutcome
  cmp : Except PyExc DosageCheck

/-- The value `check_all_regulators` returns:
`{"regulatory_checks": …, "dosage_check": …}`. -/
structure RegOut where
  regulatory_checks : List (String × RegEntry)
  dosage_check : DosageCheck
deriving DecidableEq, Repr

/-- The `{"regulatory_checks": {}, "dosage_check": {}}` placeholder the
pipeline substitutes when enrichment is skipped or fails. -/
def emptyRegOut : RegOut := ⟨[], ⟨none⟩⟩

/-- `check_all_regulators` (regulatory_checker.py lines 178-203):
gather the four checks, zip onto the fixed key list, then run the dosage
comparison against FDA's standard dosage text when that is truthy. -/
def check_all_regulators (env : RegEnv) (inn_name source_dosage : String) :
    RegOut :=
  let regulatory_status : List (String × RegEntry) :=
    [("FDA", check_fda env.fda), ("EMA", check_ema env.ema),
     ("BNF", check_with_gemini env.bnf),
     ("WHO_EML", check_with_gemini env.who)]
  let fda_result := check_fda env.fda
  let dosage_comparison :=
    match fda_result.standard_dosage_text with
    | some d =>
        if pyTruthy d then compare_dosages_with_gemini env.cmp source_dosage d
        else ⟨some "mismatch"⟩
    | none => ⟨some "mismatch"⟩
  ⟨regulatory_status, dosage_comparison⟩

example :
    (check_all_regulators ⟨.raise (.other "x"), .found, .jsonFail "одобрен",
      .jsonOk ⟨some "Approved", some "ok", none⟩, .error (.other "y")⟩
      "Aspirin" "100mg").regulatory_checks.map Prod.fst
    = ["FDA", "EMA", "BNF", "WHO_EML"] := rfl

/-! ## `services/pubmed_client.py` — rate limiter

`_rate_limit` (identical in both client variants, lines 45-61 / 46-62)
keeps a deque of timestamps: it pops stamps older than one second, sleeps
one `req_interval` when at least nine remain, then appends the
`current_time` it measured on entry.  Back-to-back callers are modelled
with non-sleep work taking zero time, so each call's `current_time` is
the previous call's finish time; times are exact rationals. -/

/-- The limiter's mutable state plus ghost fields: the append-only log of
every recorded acquisition stamp, and how many calls slept.  Time is an
integer number of `req_interval` units (1/9 s for the default client);
every quantity in the back-to-back scenario is an exact multiple of that
interval, so the scaling is lossless. -/
structure RLState where
  timestamps : List ℤ
  log : List ℤ
  now : ℤ
  sleeps : ℕ
deriving DecidableEq, Repr

/-- The `while`/`popleft` loop: drop leading stamps strictly older than
`one_second` (1.0 s, i.e. 9 units for the default client). -/
def dropOldTimestamps (one_second current_time : ℤ) : List ℤ → List ℤ
  | [] => []
  | t :: ts =>
      if current_time - t > one_second then
        dropOldTimestamps one_second current_time ts
      else t :: ts

/-- One `_rate_limit()` call: pop old stamps, sleep one `req_interval`
(= 1 unit) when at least nine remain, then append.  Note the source
records `current_time` (measured before any sleep) and appends it
unconditionally. -/
def rate_limit (one_second : ℤ) (s : RLState) : RLState :=
  let current_time := s.now
  let ts := dropOldTimestamps one_second current_time s.timestamps
  let wait : ℤ := if ts.length ≥ 9 then 1 else 0
  { timestamps := ts ++ [current_time]
    log := s.log ++ [current_time]
    now := s.now + wait
    sleeps := s.sleeps + (if ts.length ≥ 9 then 1 else 0) }

/-- `n` back-to-back `_rate_limit()` calls starting from a fresh
`PubMedClient(reqs_per_second=9)`: non-sleep work takes zero time, so
each call enters at the previous call's finish time. -/
def rlRun (one_second : ℤ) : ℕ → RLState
  | 0 => ⟨[], [], 0, 0⟩
  | n + 1 => rate_limit one_second (rlRun one_second n)

/-- How many recorded acquisition stamps fall in the trailing 1-second
window ending at `t` (`one_second` units wide, boundaries included,
mirroring the deque-eviction comparison). -/
def windowCount (one_second : ℤ) (log : List ℤ) (t : ℤ) : ℕ :=
  (log.filter fun x => decide (t - one_second ≤ x) && decide (x ≤ t)).length

/-! ## `services/pubmed_client.py` — disease-context extraction -/

/-- Variant 1 (`_extract_disease_context`, lines 63-88): the plain
substring keyword list, in source order. -/
def diseaseKeywords : List String :=
  ["диабет", "гипертония", "астма", "пневмония", "инфекция", "воспаление",
   "артрит", "депрессия", "тревога", "эпилепсия", "мигрень", "боль",
   "рак", "опухоль", "лейкемия", "лимфома", "саркома", "карцинома",
   "ишемия", "инфаркт", "инсульт", "тромбоз", "эмболия",
   "diabetes", "hypertension", "asthma", "pneumonia", "infection",
   "inflammation", "arthritis", "depression", "anxiety", "epilepsy",
   "migraine", "pain", "cancer", "tumor", "leukemia", "lymphoma",
   "sarcoma", "carcinoma", "ischemia", "infarction", "stroke",
   "thrombosis", "embolism"]

/-- `_extract_disease_context` (variant 1): first keyword occurring in
the lowercased context, else the first three whitespace words. -/
def extract_disease_context (context_indication : String) : String :=
  if ¬ pyTruthy context_indication then ""
  else
    let cl := pyLower context_indication
    match diseaseKeywords.filter (fun k => pyContains cl k) with
    | k :: _ => k
    | [] =>
        let words := (pySplitWs context_indication).take 3
        if words.isEmpty then "" else " ".intercalate words

/-- The three regex shapes variant 2's pattern list uses: a Russian stem
extended by `[а-я]*`, a plain literal, and `diabetes?` (literal stem with
an optional trailing `s`). -/
inductive PatKind where
  | rusExt
  | lit
  | optS
deriving DecidableEq, Repr

/-- Membership in the regex class `[а-я]` (U+0430 to U+044F). -/
def cyrLowerRange (c : Char) : Bool :=
  0x430 ≤ c.toNat && c.toNat ≤ 0x44F

/-- `re.search` of one pattern over a lowercased character list: leftmost
stem occurrence, extended greedily per the pattern kind; returns
`match.group(1)`. -/
def searchPat (stem : List Char) (kind : PatKind) : List Char → Option (List Char)
  | [] => none
  | c :: cs =>
      if startsWithList stem (c :: cs) then
        let after := (c :: cs).drop stem.length
        match kind with
        | .lit => some stem
        | .rusExt => some (stem ++ after.takeWhile cyrLowerRange)
        | .optS => some (stem ++ if after.head? == some 's' then ['s'] else [])
      else searchPat stem kind cs

/-- Variant 2's `disease_patterns` (lines 70-119), in source order. -/
def diseasePatterns : List (String × PatKind) :=
  [("диабет", .rusExt), ("гипертони", .rusExt), ("астм", .rusExt),
   ("пневмони", .rusExt), ("инфекци", .rusExt), ("воспалени", .rusExt),
   ("артрит", .rusExt), ("депресси", .rusExt), ("тревог", .rusExt),
   ("эпилепси", .rusExt), ("мигрен", .rusExt), ("бол", .rusExt),
   ("рак", .rusExt), ("опухол", .rusExt), ("лейкеми", .rusExt),
   ("лимфом", .rusExt), ("саркома", .rusExt), ("карцином", .rusExt),
   ("ишеми", .rusExt), ("инфаркт", .rusExt), ("инсульт", .rusExt),
   ("тромбоз", .rusExt), ("эмболи", .rusExt),
   ("diabete", .optS), ("hypertension", .lit), ("asthma", .lit),
   ("pneumonia", .lit), ("infection", .lit), ("inflammation", .lit),
   ("arthritis", .lit), ("depression", .lit), ("anxiety", .lit),
   ("epilepsy", .lit), ("migraine", .lit), ("pain", .lit),
   ("cancer", .lit), ("tumor", .lit), ("leukemia", .lit),
   ("lymphoma", .lit), ("sarcoma", .lit), ("carcinoma", .lit),
   ("ischemia", .lit), ("infarction", .lit), ("stroke", .lit),
   ("thrombosis", .lit), ("embolism", .lit)]

/-- `_extract_disease_from_context` (variant 2, lines 64-133): first
pattern (in list order) that matches anywhere in the lowercased context,
else the first four whitespace words longer than three characters. -/
def extract_disease_from_context (context : String) : String :=
  if ¬ pyTruthy context then ""
  else
    let cl := (pyLower context).data
    match diseasePatterns.findSome? (fun p => searchPat p.1.data p.2 cl) with
    | some m => ⟨m⟩
    | none =>
        let words := ((pySplitWs context).take 4).filter (fun w => w.length > 3)
        if words.isEmpty then "" else " ".intercalate words

example : extract_disease_from_context "therapy of diabetes mellitus" =
    "diabetes" := by decide
example : extract_disease_context "лечение рака" = "рак" := by decide
example : extract_disease_context "misc protocol text" =
    "misc protocol text" := by decide

/-! ## `services/pubmed_client.py` — the two search entry points

Fetched article dicts are opaque payloads here (their field-by-field
construction from MEDLINE records carries no control flow), so an article
is an opaque string and `fetch` hands the mapped list back directly.
Every external touch is counted: rate-limiter acquisitions, cache reads
and writes, `esearch` calls and `efetch` calls. -/

/-- Counters over one search invocation. -/
structure PubCounts where
  rateAcquires : ℕ
  cacheGets : ℕ
  cacheSets : ℕ
  searchCalls : ℕ
  fetchCalls : ℕ
deriving DecidableEq, Repr

def PubCounts.zero : PubCounts := ⟨0, 0, 0, 0, 0⟩

def PubCounts.incRate (c : PubCounts) : PubCounts :=
  { c with rateAcquires := c.rateAcquires + 1 }

def PubCounts.incCacheGets (c : PubCounts) : PubCounts :=
  { c with cacheGets := c.cacheGets + 1 }

def PubCounts.incCacheSets (c : PubCounts) : PubCounts :=
  { c with cacheSets := c.cacheSets + 1 }

def PubCounts.incSearch (c : PubCounts) : PubCounts :=
  { c with searchCalls := c.searchCalls + 1 }

def PubCounts.incFetch (c : PubCounts) : PubCounts :=
  { c with fetchCalls := c.fetchCalls + 1 }

/-- The external world a search invocation runs against: whether a Redis
client was constructed, the cache contents (a failed read is already a
miss, per the code's inner `try`), the `esearch` outcome per query term,
and the `efetch`-plus-record-mapping outcome per pmid list. -/
structure PubEnv where
  hasRedis : Bool
  cacheGet : String → Option (List String)
  search : String → Except PyExc (List String)
  fetch : List String → Except PyExc (List String)

/-- `f'"{term}"[Title/Abstract]'`. -/
def quoteTA (term : String) : String :=
  "\"" ++ term ++ "\"[Title/Abstract]"

/-- `drug_terms` / `drug_query` (same construction in both variants):
INN always, brand name appended when truthy and different. -/
def drugQuery (inn_name brand_name : String) : String :=
  let terms :=
    if pyTruthy brand_name ∧ brand_name ≠ inn_name then
      [inn_name, brand_name]
    else [inn_name]
  " OR ".intercalate (terms.map quoteTA)

/-- Variant 2's strategy-1 study filter (line 157). -/
def studyTypesStrat1 : String :=
  "\"systematic review\"[Publication Type] OR \"meta-analysis\"[Publication Type] OR \"randomized controlled trial\"[Publication Type]"

/-- Variant 2's strategy-2 study filter (line 170). -/
def studyTypesStrat2 : String :=
  "\"clinical trial\"[Publication Type] OR \"randomized controlled trial\"[Publication Type] OR \"review\"[Publication Type]"

/-- Variant 2's ordered strategy query list (lines 146-181): the
disease-specific strategy only exists when a disease was extracted. -/
def strategyQueries (inn_name brand_name context : String) : List String :=
  let main_disease := extract_disease_from_context context
  let dq := drugQuery inn_name brand_name
  let strat1 :=
    if pyTruthy main_disease then
      ["(" ++ dq ++ ") AND (\"" ++ main_disease ++
        "\"[Title/Abstract] OR \"" ++ main_disease ++
        "\"[MeSH Terms]) AND (" ++ studyTypesStrat1 ++
        ") AND (\"last 10 years\"[PDat])"]
    else []
  let strat2 := "(" ++ dq ++ ") AND (" ++ studyTypesStrat2 ++
    ") AND (\"last 10 years\"[PDat])"
  let strat3 := quoteTA inn_name ++ " AND (\"last 15 years\"[PDat])"
  strat1 ++ [strat2, strat3]

/-- The strategy loop of `search_articles_for_drug` (lines 184-275):
per strategy, cache read; on miss rate-limit and `esearch`; a raise or an
empty id list moves to the next strategy; on ids, rate-limit and
`efetch`; a fetch raise is caught by the per-strategy `except` and also
moves on; a fetch success is cached and returned. -/
def tryStrategies (env : PubEnv) (max_results : ℕ) :
    List String → PubCounts → List String × PubCounts
  | [], c => ([], c)
  | q :: rest, c =>
      let key := "pubmed_v3:" ++ q ++ ":" ++ toString max_results
      let c0 := if env.hasRedis then c.incCacheGets else c
      match (if env.hasRedis then env.cacheGet key else none) with
      | some cached => (cached, c0)
      | none =>
          let c1 := c0.incRate.incSearch
          match env.search q with
          | .error _ => tryStrategies env max_results rest c1
          | .ok [] => tryStrategies env max_results rest c1
          | .ok pmids =>
              let c2 := c1.incRate.incFetch
              match env.fetch pmids with
              | .error _ => tryStrategies env max_results rest c2
              | .ok articles =>
                  let c3 := if env.hasRedis then c2.incCacheSets else c2
                  (articles, c3)

/-- `search_articles_for_drug` (variant 2, lines 135-275): guard the
INN, build the strategy list, then run the strategy loop. -/
def search_articles_for_drug (env : PubEnv)
    (inn_name brand_name context : String) (max_results : ℕ) :
    List String × PubCounts :=
  if ¬ pyTruthy inn_name ∨
      ["unknown", "не определен", ""].contains (pyLower inn_name) then
    ([], PubCounts.zero)
  else
    tryStrategies env max_results
      (strategyQueries inn_name brand_name context) PubCounts.zero

/-- Variant 1's five-entry study filter (lines 115-122). -/
def studyTypesV1 : String :=
  "\"randomized controlled trial\"[Publication Type] OR \"meta-analysis\"[Publication Type] OR \"systematic review\"[Publication Type] OR \"clinical trial\"[Publication Type] OR \"review\"[Publication Type]"

/-- Variant 1's primary search term (lines 101-125). -/
def searchTermV1 (inn_name brand_name main_disease : String) : String :=
  let dq := drugQuery inn_name brand_name
  let context_query :=
    if pyTruthy main_disease then
      " AND (\"" ++ main_disease ++ "\"[Title/Abstract] OR \"" ++
        main_disease ++ "\"[MeSH Terms])"
    else ""
  "(" ++ dq ++ ")" ++ context_query ++ " AND (" ++ studyTypesV1 ++
    ") AND (\"last 10 years\"[PDat])"

/-- Variant 1's broader fallback term (line 162). -/
def broaderTermV1 (inn_name brand_name : String) : String :=
  "(" ++ drugQuery inn_name brand_name ++ ") AND (" ++ studyTypesV1 ++
    ") AND (\"last 10 years\"[PDat])"

/-- The fetch phase shared by both search paths of variant 1
(lines 180-224): rate-limit, `efetch`, cache the mapped articles;
a raise is caught by the enclosing `try` and yields `[]`. -/
def fetchPhaseV1 (env : PubEnv) (cache_key : String)
    (pmids : List String) (c : PubCounts) : List String × PubCounts :=
  let c1 := c.incRate.incFetch
  match env.fetch pmids with
  | .error _ => ([], c1)
  | .ok articles =>
      let c2 := if env.hasRedis then c1.incCacheSets else c1
      (articles, c2)

/-- `search_articles` (variant 1, lines 90-228): guard the INN; one
primary search; when it yields no ids and a disease was extracted, one
broader search; no ids at all yields `[]`; otherwise fetch.  Any raise
inside the big `try` is caught and yields `[]`. -/
def search_articles (env : PubEnv)
    (inn_name brand_name disease_context : String) (max_results : ℕ) :
    List String × PubCounts :=
  if ¬ pyTruthy inn_name ∨
      ["unknown", "не определен"].contains (pyLower inn_name) then
    ([], PubCounts.zero)
  else
    let main_disease := extract_disease_context disease_context
    let term := searchTermV1 inn_name brand_name main_disease
    let key := "pubmed_v2:" ++ term ++ ":" ++ toString max_results
    let c0 := if env.hasRedis then PubCounts.zero.incCacheGets
      else PubCounts.zero
    match (if env.hasRedis then env.cacheGet key else none) with
    | some cached => (cached, c0)
    | none =>
        let c1 := c0.incRate.incSearch
        match env.search term with
        | .error _ => ([], c1)
        | .ok pmids =>
            if pmids.isEmpty then
              if pyTruthy main_disease then
                let c2 := c1.incRate.incSearch
                match env.search (broaderTermV1 inn_name brand_name) with
                | .error _ => ([], c2)
                | .ok pmids2 =>
                    if pmids2.isEmpty then ([], c2)
                    else fetchPhaseV1 env key pmids2 c2
              else ([], c1)
            else fetchPhaseV1 env key pmids c1

/-! ## `main_pipeline.py` — per-drug orchestration and fan-out

`process_single_drug` calls `drug_normalizer.normalize_drug_with_existing_inn`
when extraction already supplied an INN; `drug_normalizer.py` defines no
such attribute, so that call raises `AttributeError`, which the
surrounding `try` catches into the `{"inn_name": None, "source":
"Error", "confidence": "none"}` result.  The other three service calls
(`normalize_drug`, `check_all_regulators`, `search_articles`) are the
embedded functions above, each driven by its own environment. -/

/-- Python's `s[:n]` by characters. -/
def pyTake (n : ℕ) (s : String) : String := ⟨s.data.take n⟩

/-- Whether `drug_normalizer.py` binds `normalize_drug_with_existing_inn`:
looking it up on the module. -/
def normalize_drug_with_existing_inn_attr : Except PyExc Unit :=
  if drugNormalizerModuleNames.contains "normalize_drug_with_existing_inn" then
    .ok ()
  else .error (.attributeError "normalize_drug_with_existing_inn")

/-- One extracted drug mention, projected to the keys
`process_single_drug` reads (`.get` with its defaults). -/
structure DrugInfo where
  drug_name_source : Option String
  inn_name : String
  context_indication : String
  dosage_source : String
deriving DecidableEq, Repr

/-- The environments of the external calls one `process_single_drug`
invocation can make.  `existingInnCall` is the outcome the hypothetical
`normalize_drug_with_existing_inn` call would have — only reachable if
the attribute existed. -/
structure ProcEnv where
  existingInnCall : Except PyExc NormResult
  norm : NormEnv
  reg : RegEnv
  pub : PubEnv
  jloads : String → Option ParsedAnalysis
  aiLlm : Except PyExc String

/-- One entry of the final report (`full_drug_data`). -/
structure DrugResult where
  source_data : DrugInfo
  normalization : NormResult
  regulatory_checks : RegOut
  pubmed_articles : List String
  ai_analysis : Analysis
deriving DecidableEq, Repr

/-- The fixed partial-result `ai_analysis` of main_pipeline.py
lines 117-121. -/
def unknownAnalysis : Analysis :=
  ⟨"Unknown", "Не удалось определить МНН препарата",
   "Требуется ручная проверка названия препарата"⟩

/-- The fixed error `ai_analysis` of main_pipeline.py lines 183-187. -/
def errorAnalysis : Analysis :=
  ⟨"Error", "Ошибка при генерации анализа", "Не удалось сгенерировать анализ"⟩

/-- The normalization stage of `process_single_drug` (main_pipeline.py
lines 95-108): pick `normalize_drug_with_existing_inn` (whose attribute
lookup raises) or `normalize_drug`, catching any raise into the
`{"inn_name": None, "source": "Error", "confidence": "none"}` dict.
After the `except`, `inn_name` is exactly this result's `inn_name`
(the error dict carries `None`). -/
def normalizationStep (env : ProcEnv) (drug_info : DrugInfo)
    (source_name : String) : NormResult :=
  let existing_inn := drug_info.inn_name
  let normAttempt : Except PyExc NormResult :=
    if pyTruthy existing_inn ∧
        ¬ ["unknown", "не определен"].contains (pyLower existing_inn) then do
      let _ ← normalize_drug_with_existing_inn_attr
      env.existingInnCall
    else .ok (normalize_drug env.norm source_name).1
  match normAttempt with
  | .ok r => r
  | .error _ => ⟨none, "Error", "none"⟩

/-- `process_single_drug` (main_pipeline.py lines 81-192).  Returns the
produced entry (`none` models Python `return None` for a missing/empty
source name) plus two flags: whether the regulatory collaborator and the
literature collaborator were invoked. -/
def process_single_drug (env : ProcEnv) (drug_info : DrugInfo)
    (document_context : String) : Option DrugResult × Bool × Bool :=
  match drug_info.drug_name_source with
  | none => (none, false, false)
  | some source_name =>
      if ¬ pyTruthy source_name then (none, false, false)
      else
        let normalization_result := normalizationStep env drug_info source_name
        let inn_name := normalization_result.inn_name
        if ¬ pyTruthyOpt inn_name then
          (some { source_data := drug_info
                  normalization := normalization_result
                  regulatory_checks := emptyRegOut
                  pubmed_articles := []
                  ai_analysis := unknownAnalysis }, false, false)
        else
          let inn := inn_name.getD ""
          let search_context :=
            if ¬ pyTruthy drug_info.context_indication ∧
                pyTruthy document_context then
              pyTake 200 document_context
            else drug_info.context_indication
          let regulatory_results :=
            check_all_regulators env.reg inn drug_info.dosage_source
          let pubmed_articles :=
            (search_articles env.pub inn source_name search_context 5).1
          let final_analysis :=
            match generate_ai_analysis env.jloads env.aiLlm with
            | .ok a => a
            | .error _ => errorAnalysis
          (some { source_data := drug_info
                  normalization := normalization_result
                  regulatory_checks := regulatory_results
                  pubmed_articles := pubmed_articles
                  ai_analysis := final_analysis }, true, true)

/-- The `analysis_tasks` list of main_pipeline.py line 276-277: one
`process_single_drug` invocation per extracted mention, positionally
(each index gets its own external world). -/
def analysisTasks (envs : ℕ → ProcEnv) (document_context : String) :
    ℕ → List DrugInfo → List (Option DrugResult)
  | _, [] => []
  | i, d :: ds =>
      (process_single_drug (envs i) d document_context).1 ::
        analysisTasks envs document_context (i + 1) ds

/-- The fan-out/fan-in of `run_analysis_pipeline` (main_pipeline.py
lines 273-294): gather all per-drug tasks positionally, then keep the
non-`None` results in order (`process_single_drug` never raises, so the
`isinstance(result, Exception)` arm is inert); the kept list is the
report's `analysis_results`. -/
def run_analysis_fanout (envs : ℕ → ProcEnv) (document_context : String)
    (extracted_drugs : List DrugInfo) : List DrugResult :=
  (analysisTasks envs document_context 0 extracted_drugs).reduceOption

/-! ## Concrete environments used by witnesses and counterexamples -/

/-- A quiet normalization world: RxNav finds nothing, the LLM call
fails. -/
def trivialNormEnv : NormEnv := ⟨.ok none, .error (.other "net")⟩

/-- A quiet regulatory world: nothing found, dosage LLM call fails. -/
def trivialRegEnv : RegEnv :=
  ⟨.empty, .notFound, .jsonFail "", .jsonFail "", .error (.other "net")⟩

/-- A quiet literature world: no Redis, every search empty. -/
def trivialPubEnv : PubEnv :=
  ⟨false, fun _ => none, fun _ => .ok [], fun _ => .ok []⟩

/-- A quiet per-drug world built from the above. -/
def trivialProcEnv : ProcEnv :=
  ⟨.error (.other "unreachable"), trivialNormEnv, trivialRegEnv,
   trivialPubEnv, fun _ => none, .error (.other "net")⟩

/-! ## C1 -/

/-- C1: the spec requires `generate_ai_analysis` to catch every
exception and return the `{grade: Error, …}` sentinel, never raising
past its own boundary.  The code's intent matches (its `except
Exception` handler builds exactly that dict), but the module never binds
`logger`, so every execution path — JSON success, text fallback, and the
error handler itself — hits `NameError("logger")`, and the handler's own
`logger.error` call re-raises it out of the function.  For every
`json.loads` behavior and every LLM outcome the call raises. -/
theorem generate_ai_analysis_always_raises_nameError
    (jloads : String → Option ParsedAnalysis) (llm : Except PyExc String) :
    generate_ai_analysis jloads llm = .error (.nameError "logger") := by
  cases llm with
  | error e => rfl
  | ok text =>
      cases h : jloads text with
      | none => simp only [generate_ai_analysis, h]; rfl
      | some parsed => simp only [generate_ai_analysis, h]; rfl

/-! ## C7 -/

/-- C7: the spec says a non-empty, longer-than-2-characters step-2 LLM
response becomes the INN with confidence `medium`.  The code's intent
matches (the branch building `{"source": "Gemini", "confidence":
"medium"}` exists), but `drug_normalizer.py` never imports `re`, so the
`re.sub` prefix-label cleanup raises `NameError("re")` on every
successful LLM response; the function's own `except` converts that to
`None`, making step 2 unconditionally fruitless.  Hence
`_normalize_with_gemini` returns `None` for every LLM outcome, and on
the claim's failing input (step 1 empty, LLM answering
`"Acetylsalicylic acid"`) `normalize_drug` yields confidence `"none"`
instead of the claimed `"medium"`. -/
theorem normalize_with_gemini_always_none_so_medium_unreachable :
    (∀ llm : Except PyExc String, normalize_with_gemini llm = none) ∧
    normalize_drug ⟨.ok none, .ok "Acetylsalicylic acid"⟩ "Аспирин" =
      (⟨none, "N/A", "none"⟩, true, true) := by
  constructor
  · intro llm
    cases llm with
    | error e => rfl
    | ok text => rfl
  · decide

/-! ## C8 -/

/-- C8 counterexample: the claim says the known sentinel `"unknown"`
short-circuits `normalize_drug` with no network call; in the code only
empty/blank input short-circuits, so for input `"unknown"` both the
RxNav lookup and the LLM fallback collaborators are invoked (the two
`Bool` flags). -/
theorem normalize_drug_unknown_sentinel_not_short_circuited :
    (normalize_drug ⟨.ok none, .error (.other "net down")⟩ "unknown").2
      = (true, true) := by decide

/-- C8 (amended): for every empty-or-blank input (`strip()` empty),
`normalize_drug` returns `{"inn_name": None, "source": "N/A",
"confidence": "none"}` and invokes neither the RxNav terminology lookup
nor the LLM — for every environment. -/
theorem normalize_drug_blank_short_circuits (env : NormEnv) (name : String)
    (h : pyStrip name = "") :
    normalize_drug env name = (⟨none, "N/A", "none"⟩, false, false) := by
  unfold normalize_drug
  rw [if_pos]
  right
  simp [pyTruthy, h]

/-- C8 witness: the amended theorem applied to the all-blank input
`"   "`. -/
theorem normalize_drug_blank_short_circuits_witness :
    normalize_drug trivialNormEnv "   " = (⟨none, "N/A", "none"⟩, false, false) :=
  normalize_drug_blank_short_circuits trivialNormEnv "   " (by decide)

/-! ## C9 -/

/-- C9 counterexample: the claim says every text containing "very low"
is classified `Very Low`, never masked.  The keyword chain checks
High and Moderate *before* Very Low, so a text containing both "very
low" and "high" is classified `High`. -/
theorem extract_grade_very_low_masked_by_high :
    pyContains (pyLower "very low (high risk of bias)") "very low" = true ∧
    extract_grade_from_text "very low (high risk of bias)" = "High" := by
  decide

/-- C9 (amended): for every text containing "very low" or its Russian
keyword "очень низкий" and containing no High/Moderate keyword in either
language, the fallback classifies `Very Low` — in particular never the
plain `Low`, because the very-low keywords are tested before the low
keywords.  (A High or Moderate keyword in the same text wins instead,
since those branches come first.) -/
theorem extract_grade_very_low_not_masked_by_low (t : String)
    (h : pyContains (pyLower t) "very low" = true ∨
         pyContains (pyLower t) "очень низкий" = true)
    (hh1 : pyContains (pyLower t) "high" = false)
    (hh2 : pyContains (pyLower t) "высокий" = false)
    (hm1 : pyContains (pyLower t) "moderate" = false)
    (hm2 : pyContains (pyLower t) "умеренный" = false) :
    extract_grade_from_text t = "Very Low" := by
  unfold extract_grade_from_text
  rcases h with h | h <;> simp [h, hh1, hh2, hm1, hm2]

/-- C9 witness: the amended theorem applied to a bilingual raw response
containing both languages' very-low keywords and no higher keyword. -/
theorem extract_grade_very_low_not_masked_by_low_witness :
    extract_grade_from_text "оценка: очень низкий (very low)" = "Very Low" :=
  extract_grade_very_low_not_masked_by_low "оценка: очень низкий (very low)"
    (Or.inl (by decide)) (by decide) (by decide) (by decide) (by decide)

/-! ## C4 -/

/-- C4: for every environment (any combination of the four individual
checks raising), `check_all_regulators` returns a regulatory-status map
with exactly the four fixed regulator keys in order, and a check whose
body raised is still present under its key with status `"Error"` —
never silently dropped. -/
theorem check_all_regulators_four_keys_error_kept
    (env : RegEnv) (inn_name source_dosage : String) :
    ((check_all_regulators env inn_name source_dosage).regulatory_checks.map
        Prod.fst = ["FDA", "EMA", "BNF", "WHO_EML"])
    ∧ (∀ e, env.fda = .raise e →
        (check_all_regulators env inn_name source_dosage).regulatory_checks.lookup
          "FDA" = some ⟨some "Error", none, none⟩)
    ∧ (∀ e, env.ema = .raise e →
        (check_all_regulators env inn_name source_dosage).regulatory_checks.lookup
          "EMA" = some ⟨some "Error", none, none⟩)
    ∧ (∀ e, env.bnf = .raise e →
        (check_all_regulators env inn_name source_dosage).regulatory_checks.lookup
          "BNF" = some ⟨some "Error",
            some ("Ошибка при проверке: " ++ pyStrExc e), none⟩)
    ∧ (∀ e, env.who = .raise e →
        (check_all_regulators env inn_name source_dosage).regulatory_checks.lookup
          "WHO_EML" = some ⟨some "Error",
            some ("Ошибка при проверке: " ++ pyStrExc e), none⟩) := by
  refine ⟨rfl, ?_, ?_, ?_, ?_⟩ <;> intro e h <;>
    simp [check_all_regulators, check_fda, check_ema, check_with_gemini, h,
      List.lookup]

/-- C4 witness: the theorem applied at a world where all four checks
raise — all four keys still map to `Error` entries. -/
theorem check_all_regulators_four_keys_error_kept_witness :
    ((check_all_regulators
        ⟨.raise (.other "fda down"), .raise (.other "ema down"),
         .raise (.other "bnf down"), .raise (.other "who down"),
         .error (.other "cmp down")⟩ "Aspirin" "100mg").regulatory_checks.lookup
      "FDA" = some ⟨some "Error", none, none⟩)
    ∧ ((check_all_regulators
        ⟨.raise (.other "fda down"), .raise (.other "ema down"),
         .raise (.other "bnf down"), .raise (.other "who down"),
         .error (.other "cmp down")⟩ "Aspirin" "100mg").regulatory_checks.lookup
      "WHO_EML" = some ⟨some "Error",
        some ("Ошибка при проверке: " ++ pyStrExc (.other "who down")), none⟩) :=
  ⟨(check_all_regulators_four_keys_error_kept _ "Aspirin" "100mg").2.1
      (.other "fda down") rfl,
   (check_all_regulators_four_keys_error_kept _ "Aspirin" "100mg").2.2.2.2
      (.other "who down") rfl⟩

/-! ## C6 -/

/-- C6 counterexample: the claim says no 1-second window of the
timestamp log ever holds more than 9 acquisitions.  Running 20
back-to-back `_rate_limit()` calls (ceiling 9, interval 1/9 s), the
window ending at t = 1 s holds 19 recorded acquisitions: the limiter
sleeps only one interval when the deque is full and then appends its
entry timestamp unconditionally. -/
theorem rate_limiter_window_exceeds_ceiling :
    9 < windowCount 9 (rlRun 9 20).log 9 := by decide

/-- C6 (amended): 20 back-to-back `acquire()` calls with ceiling 9 do
induce at least one delay (11 of the calls sleep), but the 1-second
window bound fails: the log's window ending at t = 1 s contains 19
acquisitions, not at most 9. -/
theorem rate_limiter_delay_induced_but_window_unbounded :
    1 ≤ (rlRun 9 20).sleeps ∧
    (rlRun 9 20).sleeps = 11 ∧
    windowCount 9 (rlRun 9 20).log 9 = 19 := by decide

/-! ## C10 -/

/-- C10: for every environment, a literature search whose `inn_name` is
empty or case-insensitively a sentinel (`"unknown"` / `"не определен"`)
returns the empty list with zero rate-limiter acquisitions, zero cache
reads/writes, and zero esearch/efetch calls — in both client
variants. -/
theorem search_guard_sentinel_no_calls (env : PubEnv)
    (inn_name brand_name context : String) (max_results : ℕ)
    (h : inn_name = "" ∨ pyLower inn_name = "unknown" ∨
         pyLower inn_name = "не определен") :
    search_articles env inn_name brand_name context max_results
      = ([], PubCounts.zero) ∧
    search_articles_for_drug env inn_name brand_name context max_results
      = ([], PubCounts.zero) := by
  have hc1 : ¬ pyTruthy inn_name = true ∨
      (["unknown", "не определен"].contains (pyLower inn_name)) = true := by
    rcases h with h | h | h
    · left; simp [pyTruthy, h]
    · right; rw [h]; decide
    · right; rw [h]; decide
  have hc2 : ¬ pyTruthy inn_name = true ∨
      (["unknown", "не определен", ""].contains (pyLower inn_name)) = true := by
    rcases h with h | h | h
    · left; simp [pyTruthy, h]
    · right; rw [h]; decide
    · right; rw [h]; decide
  constructor
  · unfold search_articles
    rw [if_pos hc1]
  · unfold search_articles_for_drug
    rw [if_pos hc2]

/-- C10 witness: the guard applied to the mixed-case Cyrillic sentinel
`"Не определен"` — the comparison is case-insensitive. -/
theorem search_guard_sentinel_no_calls_witness :
    search_articles trivialPubEnv "Не определен" "Brand" "context" 5
      = ([], PubCounts.zero) ∧
    search_articles_for_drug trivialPubEnv "Не определен" "Brand" "context" 5
      = ([], PubCounts.zero) :=
  search_guard_sentinel_no_calls trivialPubEnv "Не определен" "Brand" "context" 5
    (Or.inr (Or.inr (by decide)))

/-! ## C2 -/

/-- `process_single_drug` yields `None` exactly for mentions whose
source name is missing or empty; every other mention yields an entry. -/
lemma process_single_drug_none_iff (env : ProcEnv) (d : DrugInfo)
    (ctx : String) :
    (process_single_drug env d ctx).1 = none ↔
      pyTruthyOpt d.drug_name_source = false := by
  cases h : d.drug_name_source with
  | none => simp [process_single_drug, h, pyTruthyOpt]
  | some src =>
      by_cases hs : pyTruthy src = true
      · simp only [process_single_drug, h, hs, pyTruthyOpt]
        simp only [not_true, if_false]
        split <;> simp [hs]
      · simp [process_single_drug, h, hs, pyTruthyOpt]

/-- Every entry `process_single_drug` emits carries its own input
mention in `source_data`. -/
lemma process_single_drug_source_eq (env : ProcEnv) (d : DrugInfo)
    (ctx : String) (r : DrugResult)
    (hr : (process_single_drug env d ctx).1 = some r) :
    r.source_data = d := by
  cases h : d.drug_name_source with
  | none => rw [process_single_drug, h] at hr; cases hr
  | some src =>
      rw [process_single_drug, h] at hr
      by_cases hs : pyTruthy src = true
      · simp only [hs, not_true, if_false] at hr
        split at hr <;> · cases hr; rfl
      · simp [hs] at hr

/-- The fan-in filter, index-generalized: the kept entries' source
mentions are exactly the truthy-named input mentions, in order. -/
lemma analysisTasks_filter_spec (envs : ℕ → ProcEnv) (ctx : String) :
    ∀ (drugs : List DrugInfo) (i : ℕ),
      (analysisTasks envs ctx i drugs).reduceOption.map (·.source_data)
        = drugs.filter (fun d => pyTruthyOpt d.drug_name_source) := by
  intro drugs
  induction drugs with
  | nil => intro i; rfl
  | cons d ds ih =>
      intro i
      by_cases hd : pyTruthyOpt d.drug_name_source = false
      · have hnone : (process_single_drug (envs i) d ctx).1 = none :=
          (process_single_drug_none_iff (envs i) d ctx).mpr hd
        simp [analysisTasks, hnone, List.filter_cons, hd, ih (i + 1)]
      · have hsome : (process_single_drug (envs i) d ctx).1 ≠ none := by
          intro hc
          exact hd ((process_single_drug_none_iff (envs i) d ctx).mp hc)
        obtain ⟨r, hr⟩ := Option.ne_none_iff_exists.mp hsome
        have hsrc : r.source_data = d :=
          process_single_drug_source_eq (envs i) d ctx r hr.symm
        have hd' : pyTruthyOpt d.drug_name_source = true := by
          cases hb : pyTruthyOpt d.drug_name_source
          · exact absurd hb hd
          · rfl
        simp [analysisTasks, ← hr, List.filter_cons, hd', ih (i + 1), hsrc]

/-- C2 (amended): for every per-drug environment assignment and every
extraction result, the pipeline's `analysis_results` contains exactly
one entry per extracted mention *whose source name is present and
non-empty*, in extraction order (each kept entry's `source_data` is its
mention); mentions with a missing or empty source name are returned as
`None` and filtered out of the report; the fan-out is a total function,
so no exception reaches the caller. -/
theorem run_analysis_fanout_entry_per_named_mention (envs : ℕ → ProcEnv)
    (ctx : String) (drugs : List DrugInfo) :
    (run_analysis_fanout envs ctx drugs).map (·.source_data)
      = drugs.filter (fun d => pyTruthyOpt d.drug_name_source) ∧
    (run_analysis_fanout envs ctx drugs).length
      = (drugs.filter (fun d => pyTruthyOpt d.drug_name_source)).length := by
  have h := analysisTasks_filter_spec envs ctx drugs 0
  refine ⟨h, ?_⟩
  have := congrArg List.length h
  simpa using this

/-- C2 counterexample: the claim says the final report contains exactly
one entry per extracted mention, never fewer.  A mention whose
`drug_name_source` is the empty string is dropped: one extracted
mention, zero report entries. -/
theorem run_analysis_fanout_drops_empty_named_mention :
    (run_analysis_fanout (fun _ => trivialProcEnv) "doc"
        [⟨some "", "", "", ""⟩]).length ≠
      [(⟨some "", "", "", ""⟩ : DrugInfo)].length := by decide

/-! ## C3 -/

/-- C3 (amended): for every mention with a non-empty source name whose
normalization stage yields a *null or empty* INN, `process_single_drug`
short-circuits to the partial entry — normalization slot set to the
stage's result, the `{"regulatory_checks": {}, "dosage_check": {}}`
placeholder, an empty literature list, and the fixed grade-`Unknown`
analysis — and invokes neither the regulatory nor the literature
collaborator.  (A whitespace-blank or sentinel `"unknown"` INN is truthy
in the code's `if not inn_name` test and does *not* short-circuit; see
the counterexample.) -/
theorem process_single_drug_no_inn_short_circuits (env : ProcEnv)
    (d : DrugInfo) (ctx src : String)
    (h1 : d.drug_name_source = some src)
    (h2 : pyTruthy src = true)
    (h3 : pyTruthyOpt (normalizationStep env d src).inn_name = false) :
    process_single_drug env d ctx =
      (some ⟨d, normalizationStep env d src, emptyRegOut, [],
        unknownAnalysis⟩, false, false) := by
  simp [process_single_drug, h1, h2, h3]

/-- C3 witness: the short-circuit at a world where RxNav finds nothing
and the LLM call fails, so normalization yields a null INN. -/
theorem process_single_drug_no_inn_short_circuits_witness :
    process_single_drug trivialProcEnv ⟨some "Аспирин", "", "", ""⟩ "doc" =
      (some ⟨⟨some "Аспирин", "", "", ""⟩,
        normalizationStep trivialProcEnv ⟨some "Аспирин", "", "", ""⟩ "Аспирин",
        emptyRegOut, [], unknownAnalysis⟩, false, false) :=
  process_single_drug_no_inn_short_circuits trivialProcEnv
    ⟨some "Аспирин", "", "", ""⟩ "doc" "Аспирин" rfl (by decide) (by decide)

/-- A per-drug world whose normalization resolves to the literal string
`"unknown"` (RxNav answering that name). -/
def sentinelNormProcEnv : ProcEnv :=
  { trivialProcEnv with norm := ⟨.ok (some "unknown"), .error (.other "net")⟩ }

/-- C3 counterexample: the claim also covers mentions whose
normalization yields a *sentinel* INN, but `if not inn_name` only
catches `None`/`""`: with normalization yielding `"unknown"` the
pipeline does not short-circuit and invokes both the regulatory and
literature collaborators. -/
theorem process_single_drug_sentinel_inn_not_short_circuited :
    (normalizationStep sentinelNormProcEnv ⟨some "Aspirin", "", "", ""⟩
        "Aspirin").inn_name = some "unknown" ∧
    (process_single_drug sentinelNormProcEnv ⟨some "Aspirin", "", "", ""⟩
        "doc").2 = (true, true) := by decide

/-! ## C5 -/

/-- Without Redis, a strategy whose search raises or yields zero ids is
charged one rate-limit acquisition and one search call and the loop
moves to the next strategy. -/
lemma tryStrategies_empty_search_falls_through (env : PubEnv)
    (mr : ℕ) (q : String) (rest : List String) (c : PubCounts)
    (hR : env.hasRedis = false) (hq : env.search q = .ok []) :
    tryStrategies env mr (q :: rest) c
      = tryStrategies env mr rest c.incRate.incSearch := by
  simp [tryStrategies, hR, hq]

/-- Without Redis, the first strategy whose search yields a non-empty id
list *and* whose fetch succeeds returns immediately: the remaining
strategies are never touched. -/
lemma tryStrategies_first_hit_returns (env : PubEnv) (mr : ℕ)
    (q : String) (rest : List String) (c : PubCounts) (p : String)
    (ps arts : List String)
    (hR : env.hasRedis = false) (hq : env.search q = .ok (p :: ps))
    (hf : env.fetch (p :: ps) = .ok arts) :
    tryStrategies env mr (q :: rest) c
      = (arts, c.incRate.incSearch.incRate.incFetch) := by
  simp [tryStrategies, hR, hq, hf]

/-- Without Redis, when every search yields zero ids the loop delivers
the empty article list. -/
lemma tryStrategies_all_empty (env : PubEnv) (mr : ℕ)
    (hR : env.hasRedis = false) (hs : ∀ q, env.search q = .ok []) :
    ∀ (qs : List String) (c : PubCounts), (tryStrategies env mr qs c).1 = [] := by
  intro qs
  induction qs with
  | nil => intro c; rfl
  | cons q rest ih =>
      intro c
      rw [tryStrategies_empty_search_falls_through env mr q rest c hR (hs q)]
      exact ih _

/-- C5 (amended): the strategy loop tries strategies strictly in order
and stops at the first one whose search yields a non-empty id list *and
whose subsequent fetch succeeds* (a fetch failure is caught by the
per-strategy `except` and the next strategy is tried — see the
counterexample); in the claimed scenario (three strategies, strategy 1
zero ids, strategy 2 two ids, fetch succeeding, cold cache) exactly two
search calls, one fetch call and three rate-limit acquisitions occur and
strategy 2's articles are returned; and when every strategy yields zero
ids the result is the empty list, not an error. -/
theorem search_strategy_order_and_counts :
    (∀ (env : PubEnv) (mr : ℕ) (q : String) (rest : List String)
        (c : PubCounts) (p : String) (ps arts : List String),
      env.hasRedis = false → env.search q = .ok (p :: ps) →
      env.fetch (p :: ps) = .ok arts →
      tryStrategies env mr (q :: rest) c
        = (arts, c.incRate.incSearch.incRate.incFetch))
    ∧ (∀ (env : PubEnv) (inn brand ctx : String) (mr : ℕ)
        (q1 q2 q3 : String) (ids arts : List String),
      env.hasRedis = false →
      pyTruthy inn = true →
      (["unknown", "не определен", ""].contains (pyLower inn)) = false →
      strategyQueries inn brand ctx = [q1, q2, q3] →
      env.search q1 = .ok [] →
      env.search q2 = .ok ids → ids ≠ [] →
      env.fetch ids = .ok arts →
      search_articles_for_drug env inn brand ctx mr
        = (arts, ⟨3, 0, 0, 2, 1⟩))
    ∧ (∀ (env : PubEnv) (inn brand ctx : String) (mr : ℕ),
      env.hasRedis = false →
      (∀ q, env.search q = .ok []) →
      (search_articles_for_drug env inn brand ctx mr).1 = []) := by
  refine ⟨tryStrategies_first_hit_returns, ?_, ?_⟩
  · intro env inn brand ctx mr q1 q2 q3 ids arts hR hT hS hqs hq1 hq2 hne hf
    unfold search_articles_for_drug
    rw [if_neg, hqs]
    · cases ids with
      | nil => exact absurd rfl hne
      | cons p ps =>
          rw [tryStrategies_empty_search_falls_through env mr q1 [q2, q3]
              PubCounts.zero hR hq1,
            tryStrategies_first_hit_returns env mr q2 [q3] _ p ps arts hR hq2 hf]
          rfl
    · intro hcond
      rcases hcond with hcond | hcond
      · exact hcond hT
      · rw [hS] at hcond; cases hcond
  · intro env inn brand ctx mr hR hs
    unfold search_articles_for_drug
    split
    · rfl
    · exact tryStrategies_all_empty env mr hR hs _ _

/-- The fixed scenario strategies: `"Metformin"` / `"Glucophage"` in a
diabetes context, which extracts the disease and yields three
strategies. -/
def c5qs : List String :=
  strategyQueries "Metformin" "Glucophage" "diabetes therapy"

/-- A cold-cache world where only strategy 2's query finds ids and the
fetch of exactly those ids succeeds. -/
def c5scenEnv : PubEnv :=
  ⟨false, fun _ => none,
   fun q => if q = c5qs.getD 1 "" then .ok ["7", "8"] else .ok [],
   fun ids => if ids = ["7", "8"] then .ok ["art7", "art8"]
     else .error (.other "wrong ids")⟩

/-- C5 witness: the amended theorem applied to the concrete scenario
(two search calls, one fetch call, strategy 2's two articles returned)
and to an all-empty world (empty result, no error). -/
theorem search_strategy_order_and_counts_witness :
    search_articles_for_drug c5scenEnv "Metformin" "Glucophage"
      "diabetes therapy" 5 = (["art7", "art8"], ⟨3, 0, 0, 2, 1⟩) ∧
    (search_articles_for_drug trivialPubEnv "Metformin" "Glucophage"
      "diabetes therapy" 5).1 = [] :=
  ⟨search_strategy_order_and_counts.2.1 c5scenEnv "Metformin" "Glucophage"
      "diabetes therapy" 5 (c5qs.getD 0 "") (c5qs.getD 1 "") (c5qs.getD 2 "")
      ["7", "8"] ["art7", "art8"] rfl (by decide) (by decide) (by decide)
      (by decide) (by decide) (by decide) (by decide),
   search_strategy_order_and_counts.2.2 trivialPubEnv "Metformin" "Glucophage"
      "diabetes therapy" 5 rfl (fun q => rfl)⟩

/-- A world where every search finds an id but every fetch fails. -/
def fetchFailEnv : PubEnv :=
  ⟨false, fun _ => none, fun _ => .ok ["11111"],
   fun _ => .error (.other "fetch timeout")⟩

/-- C5 counterexample: the claim says the loop stops at the first
strategy whose *search* yields a non-empty id list, later strategies
never being tried, so at most one fetch and — in that situation — one
search would occur.  When the fetch fails, the per-strategy `except`
catches it and the loop continues: here strategy 1's search returns an
id, yet all three strategies are searched and fetched. -/
theorem search_strategies_continue_after_fetch_failure :
    fetchFailEnv.search (c5qs.getD 0 "") = .ok ["11111"] ∧
    (search_articles_for_drug fetchFailEnv "Metformin" "Glucophage"
        "diabetes therapy" 5).2.searchCalls = 3 ∧
    (search_articles_for_drug fetchFailEnv "Metformin" "Glucophage"
        "diabetes therapy" 5).2.fetchCalls = 3 := by decide
